import Mathlib

/-!
Verification of `pyethereum/wireprotocol.py` (peer wire protocol):
the packet codec (`Packeter.dump_packet` / `Packeter.load_packet`), the
command and disconnect-reason tables, the `WireProtocol` message handlers
and the outbound command drain loop.

Python byte strings are modelled as `List Nat`; decoded RLP structures as
the nested type `Item`; values that may still contain Python integers
(inputs of `dump_packet`) as `PyVal`.  Stateful handler methods are
modelled as functions returning the updated session, the list of calls
made to collaborators (`Action`), and `Option String` for an uncaught
Python exception (`none` = the method returned normally).
-/

namespace Pyeth

/-- Modelled from the spec: `utils.big_endian_to_int` (imported as `idec`;
`utils.py` is not under `src/`) — interpret a byte string as a big-endian
unsigned integer. -/
def idec (bs : List Nat) : Nat := bs.foldl (fun a b => a * 256 + b) 0

/-- Fuel-driven worker for `ibe`; fuel `n` is always enough for value `n`. -/
def ibeAux : Nat → Nat → List Nat
  | 0, _ => []
  | fuel + 1, n => if n = 0 then [] else ibeAux fuel (n / 256) ++ [n % 256]

/-- Modelled from the spec: `utils.int_to_big_endian` (not under `src/`) —
minimal big-endian byte string of an integer, `0` encoding to the empty
string. -/
def ibe (n : Nat) : List Nat := ibeAux n n

/-- Modelled from the spec: `utils.int_to_big_endian4` (imported as `ienc4`;
not under `src/`) — exactly 4 big-endian bytes, "a 4-byte payload size, to
be interpreted as a big-endian integer". Overflow is reduced mod 2^32. -/
def ienc4 (n : Nat) : List Nat :=
  [n / 2 ^ 24 % 256, n / 2 ^ 16 % 256, n / 2 ^ 8 % 256, n % 256]

/-- Lowercase hex rendering of a number, as Python `"\x7b0:x\x7d".format(n)`. -/
def natToHex (n : Nat) : String := String.mk (Nat.toDigits 16 n)

/-- A decoded RLP value: a byte string or a nested list of values. -/
inductive Item where
  | str : List Nat → Item
  | list : List Item → Item

/-- A Python value as passed to `dump_packet`: an integer, a byte string,
or a nested list of values. -/
inductive PyVal where
  | int : Nat → PyVal
  | str : List Nat → PyVal
  | list : List PyVal → PyVal

mutual
/-- Modelled from the spec: `utils.recursive_int_to_big_endian` (not under
`src/`) — replace every integer in a nested structure by its minimal
big-endian byte string. -/
def recursive_int_to_big_endian : PyVal → Item
  | .int n => .str (ibe n)
  | .str s => .str s
  | .list l => .list (ritbeList l)
/-- `recursive_int_to_big_endian` mapped over a list. -/
def ritbeList : List PyVal → List Item
  | [] => []
  | x :: xs => recursive_int_to_big_endian x :: ritbeList xs
end

mutual
/-- Embeds the integer-free values back into `PyVal`, for comparing a
decoded structure with the Python value that was encoded. -/
def itemToPy : Item → PyVal
  | .str s => .str s
  | .list l => .list (itemListToPy l)
/-- `itemToPy` mapped over a list. -/
def itemListToPy : List Item → List PyVal
  | [] => []
  | x :: xs => itemToPy x :: itemListToPy xs
end

/-- Length header of the serialisation: the minimal big-endian byte string
of the length, preceded by one byte giving its own length. -/
def lenHeader (n : Nat) : List Nat := (ibe n).length :: ibe n

mutual
/-- Modelled from the spec: `rlp.encode` (the `rlp` module is not under
`src/`; the spec treats it as an external primitive, "the length-prefixed,
recursively nested binary serialization used for payload bodies") — tag
byte 0 for a byte string, 1 for a list, then a length header and the
payload. -/
def enc : Item → List Nat
  | .str s => 0 :: lenHeader s.length ++ s
  | .list l => 1 :: lenHeader (encList l).length ++ encList l
/-- Concatenated encodings of the elements of a list. -/
def encList : List Item → List Nat
  | [] => []
  | x :: xs => enc x ++ encList xs
end

/-- Decode a concatenation of serialised items until the bytes run out.
Fuel-driven for structural termination; fuel `bytes.length + 1` always
suffices because every item consumes at least two bytes. -/
def decList : Nat → List Nat → Option (List Item)
  | 0, _ => none
  | _ + 1, [] => some []
  | fuel + 1, t :: k :: rest =>
    if k ≤ rest.length then
      if idec (rest.take k) ≤ (rest.drop k).length then
        if t = 0 then
          match decList fuel ((rest.drop k).drop (idec (rest.take k))) with
          | some more => some (Item.str ((rest.drop k).take (idec (rest.take k))) :: more)
          | none => none
        else if t = 1 then
          match decList fuel ((rest.drop k).take (idec (rest.take k))),
                decList fuel ((rest.drop k).drop (idec (rest.take k))) with
          | some items, some more => some (Item.list items :: more)
          | _, _ => none
        else none
      else none
    else none
  | _ + 1, [_] => none

/-- Modelled from the spec: `rlp.decode` (not under `src/`) — parse one
serialised item consuming the whole input; `none` models the decode
exception on malformed data ("any primitive-level decode failure"). -/
def rlp_decode (data : List Nat) : Option Item :=
  match data with
  | t :: k :: rest =>
    if k ≤ rest.length then
      if idec (rest.take k) = (rest.drop k).length then
        if t = 0 then some (.str (rest.drop k))
        else if t = 1 then (decList ((rest.drop k).length + 1) (rest.drop k)).map .list
        else none
      else none
    else none
  | _ => none

/-- `lrlp_decode` (wireprotocol.py lines 14-19): decode, wrapping a bare
string into a one-element list so the result is always a list. -/
def lrlp_decode (data : List Nat) : Option (List Item) :=
  match rlp_decode data with
  | some (Item.str s) => some [Item.str s]
  | some (Item.list l) => some l
  | none => none

/-- `Packeter.SYNCHRONIZATION_TOKEN`. -/
def SYNCHRONIZATION_TOKEN : Nat := 0x22400891

/-- `Packeter.PROTOCOL_VERSION`. -/
def PROTOCOL_VERSION : Nat := 0x09

/-- `Packeter.NETWORK_ID`. -/
def NETWORK_ID : Nat := 0

/-- `Packeter.CAPABILITIES`. -/
def CAPABILITIES : Nat := 0x01 + 0x02 + 0x04

/-- `Packeter.cmd_map`: command id to command name. -/
def cmd_map : Nat → Option String
  | 0x00 => some "Hello"
  | 0x01 => some "Disconnect"
  | 0x02 => some "Ping"
  | 0x03 => some "Pong"
  | 0x10 => some "GetPeers"
  | 0x11 => some "Peers"
  | 0x12 => some "Transactions"
  | 0x13 => some "Blocks"
  | 0x14 => some "GetChain"
  | 0x15 => some "NotInChain"
  | 0x16 => some "GetTransactions"
  | _ => none

/-- `Packeter.disconnect_reasons_map`: reason name to reason id. -/
def disconnect_reasons_map : String → Option Nat
  | "Disconnect requested" => some 0x00
  | "TCP sub-system error" => some 0x01
  | "Bad protocol" => some 0x02
  | "Useless peer" => some 0x03
  | "Too many peers" => some 0x04
  | "Already connected" => some 0x05
  | "Wrong genesis block" => some 0x06
  | "Incompatible network protocols" => some 0x07
  | "Client quitting" => some 0x08
  | _ => none

/-- `Packeter.disconnect_reasons_map_by_id`: reason id to reason name. -/
def disconnect_reasons_map_by_id : Nat → Option String
  | 0x00 => some "Disconnect requested"
  | 0x01 => some "TCP sub-system error"
  | 0x02 => some "Bad protocol"
  | 0x03 => some "Useless peer"
  | 0x04 => some "Too many peers"
  | 0x05 => some "Already connected"
  | 0x06 => some "Wrong genesis block"
  | 0x07 => some "Incompatible network protocols"
  | 0x08 => some "Client quitting"
  | _ => none

/-- `idec` applied to a decoded payload element: `big_endian_to_int`
raises a TypeError when handed a nested list instead of a byte string. -/
def idecItem : Item → Option Nat
  | .str s => some (idec s)
  | .list _ => none

/-- Failure results of `Packeter.load_packet` (source returns
`(False, message)`; `typeError` models the uncaught exception raised by
`idec(payload[0])` on a nested list at line 97, outside the try block). -/
inductive LoadErr where
  | framing : String → LoadErr
  | malformedPayload : LoadErr
  | unknownCommand : LoadErr
  | typeError : LoadErr

/-- Success result of `Packeter.load_packet`:
`(header, payload_len, cmd, payload[1:])`. -/
structure LoadOk where
  header : Nat
  payload_len : Nat
  cmd : String
  data : List Item

/-- The framing error message of `load_packet` lines 88-89. -/
def header_err (header : Nat) : String :=
  "check header failed, skipping message,sync token was hex: " ++ natToHex header

/-- `Packeter.load_packet` (lines 72-101): check the 4-byte sync token,
read the 4-byte payload length, decode that slice, then check the list is
non-empty and its first element a known command id. -/
def load_packet (packet : List Nat) : Except LoadErr LoadOk :=
  if idec (packet.take 4) ≠ SYNCHRONIZATION_TOKEN then
    Except.error (LoadErr.framing (header_err (idec (packet.take 4))))
  else
    match lrlp_decode ((packet.drop 8).take (idec ((packet.drop 4).take 4))) with
    | none => Except.error LoadErr.malformedPayload
    | some [] => Except.error LoadErr.unknownCommand
    | some (Item.list _ :: _) => Except.error LoadErr.typeError
    | some (Item.str s :: rest) =>
      match cmd_map (idec s) with
      | none => Except.error LoadErr.unknownCommand
      | some cmd =>
        Except.ok ⟨idec (packet.take 4), idec ((packet.drop 4).take 4), cmd, rest⟩

/-- `Packeter.dump_packet` (lines 110-122): sync token, 4-byte big-endian
payload length, then the serialised payload with integers converted to
big-endian byte strings. -/
def dump_packet (data : List PyVal) : List Nat :=
  ienc4 SYNCHRONIZATION_TOKEN
    ++ (ienc4 (enc (recursive_int_to_big_endian (PyVal.list data))).length
    ++ enc (recursive_int_to_big_endian (PyVal.list data)))

/-- The configuration values `Packeter` reads (client id already resolved
against the default, listen port, wallet public key). -/
structure Config where
  client_id : List Nat
  listen_port : Nat
  pub_key : List Nat

/-- `Packeter.dump_Hello` (lines 124-133); has a return statement. -/
def dump_Hello (cfg : Config) : Option (List Nat) :=
  some (dump_packet
    [PyVal.int 0x00, PyVal.int PROTOCOL_VERSION, PyVal.int NETWORK_ID,
     PyVal.str cfg.client_id, PyVal.int cfg.listen_port,
     PyVal.int CAPABILITIES, PyVal.str cfg.pub_key])

/-- `Packeter.dump_Ping` (lines 135-140); has a return statement. -/
def dump_Ping : Option (List Nat) := some (dump_packet [PyVal.int 0x02])

/-- `Packeter.dump_Pong` (lines 142-147); has a return statement. -/
def dump_Pong : Option (List Nat) := some (dump_packet [PyVal.int 0x03])

/-- `Packeter.dump_Disconnect` (lines 149-163): asserts the reason is
absent or a known name, builds and frames the payload — but line 163 has
no `return` statement, so the method always returns `None` (`Except.error`
models the AssertionError on an unknown reason name). -/
def dump_Disconnect (reason : Option String) : Except String (Option (List Nat)) :=
  match reason with
  | some r =>
    match disconnect_reasons_map r with
    | some rid =>
      let _ := dump_packet [PyVal.int 0x01, PyVal.int rid]
      Except.ok none
    | none => Except.error "AssertionError"
  | none =>
    let _ := dump_packet [PyVal.int 0x01]
    Except.ok none

/-- `Packeter.dump_GetPeers` (lines 165-166); no return statement. -/
def dump_GetPeers : Option (List Nat) :=
  let _ := dump_packet [PyVal.int 0x10]
  none

/-- `chr(int(x))` for one dotted-quad component in `dump_Peers`; the
result is discarded by the missing return, so a parse failure is modelled
as byte 0. -/
def chr_of_decimal (x : String) : PyVal := PyVal.str [x.toNat?.getD 0]

/-- `Packeter.dump_Peers` (lines 168-180): re-encode each dotted-quad ip
string to bytes and frame `[0x11, [ip, port, pid], ...]` — but line 178
has no `return` statement, so the non-empty branch also returns `None`. -/
def dump_Peers (peers : List (String × Nat × PyVal)) : Option (List Nat) :=
  let data : List PyVal :=
    PyVal.int 0x11 :: peers.map (fun p =>
      PyVal.list [PyVal.list ((p.1.splitOn ".").map chr_of_decimal),
                  PyVal.int p.2.1, p.2.2])
  if data.length > 1 then
    let _ := dump_packet data
    none
  else none

/-- `Packeter.dump_Transactions` (lines 182-184); no return statement. -/
def dump_Transactions (transactions : PyVal) : Option (List Nat) :=
  let _ := dump_packet [PyVal.int 0x12, transactions]
  none

/-- `Packeter.dump_GetTransactions` (lines 186-187); no return statement. -/
def dump_GetTransactions : Option (List Nat) :=
  let _ := dump_packet [PyVal.int 0x16]
  none

/-- Per-connection mutable peer state touched by the engine. -/
structure Session where
  hello_sent : Bool
  hello_received : Bool
  node_id : Option Item
  last_valid_packet_received : Option Nat

/-- One observable call to a collaborator. `sendPacket none` is
`peer.send_packet(None)`; `sendPacketPeerArg` is the call at line 274 that
passes `peer` as an extra first argument; `sendPacketNoArgs` is the
zero-argument `peer.send_packet()` at line 333. -/
inductive Action where
  | sendPacket (packet : Option (List Nat))
  | sendPacketPeerArg (packet : Option (List Nat))
  | sendPacketNoArgs
  | sendTransactionTo (peer : Nat) (packet : Option (List Nat))
  | sleep (seconds : Nat)
  | removePeer
  | addPeerAddress (ip : String) (port : Nat) (pid : Item)
  | requestTransactions
  | addTransactions (txs : List Item)

/-- `WireProtocol.send_Disconnect` (lines 289-293): calls
`dump_Disconnect()` WITHOUT forwarding its own `reason` argument, sends
the (None) result, sleeps 2 seconds and removes the peer. -/
def send_Disconnect (_reason : Option String) : List Action :=
  match dump_Disconnect none with
  | Except.ok b => [Action.sendPacket b, Action.sleep 2, Action.removePeer]
  | Except.error _ => []

/-- `WireProtocol._recv_Hello` (lines 227-275): check protocol version and
network id (disconnecting with distinct reason arguments on mismatch),
record the node id when 6 fields are present, and reply with Hello when
not yet sent (via the buggy `peer.send_packet(peer, ...)` call). -/
def recv_Hello (cfg : Config) (s : Session) (data : List Item) :
    Session × List Action × Option String :=
  match data with
  | [] => (s, [], some "IndexError")
  | d0 :: drest =>
    match idecItem d0 with
    | none => (s, [], some "TypeError")
    | some version =>
      if version ≠ PROTOCOL_VERSION then
        (s, send_Disconnect (some "Incompatible network protocols"), none)
      else
        match drest with
        | [] => (s, [], some "IndexError")
        | d1 :: _ =>
          match idecItem d1 with
          | none => (s, [], some "TypeError")
          | some network_id =>
            if network_id ≠ NETWORK_ID then
              (s, send_Disconnect (some "Wrong genesis block"), none)
            else
              let s2 : Session :=
                if data.length = 6 then
                  { s with hello_received := true, node_id := data[5]? }
                else { s with hello_received := true }
              if s2.hello_sent then (s2, [], none)
              else ({ s2 with hello_sent := true },
                    [Action.sendPacketPeerArg (dump_Hello cfg)], none)

/-- `WireProtocol._recv_Ping` (lines 280-281): reply with Pong. -/
def recv_Ping (_data : List Item) : List Action :=
  [Action.sendPacket dump_Pong]

/-- `WireProtocol._recv_Pong` (lines 286-287): ask for transactions
(`dump_GetTransactions` returns None for lack of a return statement). -/
def recv_Pong (_data : List Item) : List Action :=
  [Action.sendPacket dump_GetTransactions]

/-- `WireProtocol._recv_Disconnect` (lines 295-299): a present reason id
is resolved with a plain dict lookup — an unknown id raises KeyError and
`remove_peer` is never reached. -/
def recv_Disconnect (data : List Item) : List Action × Option String :=
  match data with
  | [] => ([Action.removePeer], none)
  | d0 :: _ =>
    match idecItem d0 with
    | none => ([], some "TypeError")
    | some rid =>
      match disconnect_reasons_map_by_id rid with
      | some _reason => ([Action.removePeer], none)
      | none => ([], some "KeyError")

/-- `str(ord(b or nul-byte))` for one element of a Peers ip list: an empty
string or empty list is falsy and becomes byte 0; `ord` of a longer string
or of a non-empty list raises TypeError. -/
def ord_or_nul : Item → Except String Nat
  | Item.str [] => Except.ok 0
  | Item.str [b] => Except.ok b
  | Item.str (_ :: _ :: _) => Except.error "TypeError"
  | Item.list [] => Except.ok 0
  | Item.list (_ :: _) => Except.error "TypeError"

/-- Byte values of a Peers ip list, failing (left to right) on the first
element `ord` rejects. -/
def ord_list : List Item → Except String (List Nat)
  | [] => Except.ok []
  | b :: bs =>
    match ord_or_nul b, ord_list bs with
    | Except.ok n, Except.ok ns => Except.ok (n :: ns)
    | Except.error e, _ => Except.error e
    | _, Except.error e => Except.error e

/-- The dot-joined decimal rendering of a Peers ip list (line 324). -/
def ip_join (ipb : List Item) : Except String String :=
  match ord_list ipb with
  | Except.ok ns => Except.ok (String.intercalate "." (ns.map toString))
  | Except.error e => Except.error e

/-- Processing of a single `[ip, port, pid]` entry of a Peers message
(lines 322-327): tuple unpacking, the `isinstance(ip, list)` assertion,
ip rendering, `idec(port)`, then the `add_peer_address` call. Note there
is no check that the ip list has exactly 4 elements. -/
def peers_entry (e : Item) : Except String Action :=
  match e with
  | Item.list [ip, port, pid] =>
    match ip with
    | Item.list ipb =>
      match ip_join ipb with
      | Except.ok ipstr =>
        match idecItem port with
        | some p => Except.ok (Action.addPeerAddress ipstr p pid)
        | none => Except.error "TypeError"
      | Except.error msg => Except.error msg
    | Item.str _ => Except.error "AssertionError"
  | Item.list _ => Except.error "ValueError"
  | Item.str l =>
    if l.length = 3 then Except.error "AssertionError" else Except.error "ValueError"

/-- `WireProtocol._recv_Peers` (lines 312-327): process the entries in
order; the first entry that raises aborts the whole loop, keeping the
`add_peer_address` calls already made. -/
def recv_Peers : List Item → List Action × Option String
  | [] => ([], none)
  | e :: rest =>
    match peers_entry e with
    | Except.ok a =>
      let r := recv_Peers rest
      (a :: r.1, r.2)
    | Except.error msg => ([], some msg)

/-- Spec-level view of one ip byte (an at-most-one-byte string: absent
byte reads as 0), for stating what a well-formed Peers entry forwards. -/
def ipByte : Item → Nat
  | Item.str [b] => b
  | _ => 0

/-- Spec-level check that every entry of a Peers message processes without
raising, together with the forwarded actions. -/
def peers_entries_ok : List Item → Option (List Action)
  | [] => some []
  | e :: rest =>
    match peers_entry e, peers_entries_ok rest with
    | Except.ok a, some as => some (a :: as)
    | _, _ => none

/-- `WireProtocol.send_Peers` (lines 329-333): `dump_Peers` always returns
None (missing return), so the `if packet:` guard never fires and nothing
is ever sent; had it fired, the call is `peer.send_packet()` with no
argument. -/
def send_Peers (known : List (String × Nat × PyVal)) : List Action :=
  match dump_Peers known with
  | some _ => [Action.sendPacketNoArgs]
  | none => []

/-- `WireProtocol._recv_GetPeers` (lines 301-307): reply with Peers. -/
def recv_GetPeers (known : List (String × Nat × PyVal)) (_data : List Item) : List Action :=
  send_Peers known

/-- `WireProtocol._recv_Transactions` (lines 349-358): forward to the
chain manager inbound proxy. -/
def recv_Transactions (data : List Item) : List Action :=
  [Action.addTransactions data]

/-- `WireProtocol._recv_Blocks` (lines 335-347): accesses
`self.chain_requester`, an attribute never assigned in `__init__` (only
the two chain-manager proxies are), so the handler raises AttributeError
after the debug print. -/
def recv_Blocks (_data : List Item) : List Action × Option String :=
  ([], some "AttributeError: chain_requester")

/-- The collaborator data `recv_packet` can reach: the packeter config and
`peer_manager.get_known_peer_addresses()`. -/
structure EngineCtx where
  config : Config
  known_peer_addresses : List (String × Nat × PyVal)

/-- `WireProtocol.recv_packet` (lines 197-221): decode (disconnecting with
reason `Bad protocol` on any decode failure), stamp
`last_valid_packet_received`, then dispatch on the command name via
`_recv_<cmd>`; a command with no handler (GetChain, NotInChain) is logged
and ignored. `_recv_GetTransactions` (line 363) is declared with only a
`peer` parameter while dispatch passes `(peer, data)`, so that call raises
TypeError before the handler body runs. -/
def recv_packet (ctx : EngineCtx) (s : Session) (now : Nat) (packet : List Nat) :
    Session × List Action × Option String :=
  match load_packet packet with
  | Except.error _ => (s, send_Disconnect (some "Bad protocol"), none)
  | Except.ok res =>
    let s1 : Session := { s with last_valid_packet_received := some now }
    match res.cmd with
    | "Hello" => recv_Hello ctx.config s1 res.data
    | "Disconnect" =>
      let r := recv_Disconnect res.data
      (s1, r.1, r.2)
    | "Ping" => (s1, recv_Ping res.data, none)
    | "Pong" => (s1, recv_Pong res.data, none)
    | "GetPeers" => (s1, recv_GetPeers ctx.known_peer_addresses res.data, none)
    | "Peers" =>
      let r := recv_Peers res.data
      (s1, r.1, r.2)
    | "Transactions" => (s1, recv_Transactions res.data, none)
    | "Blocks" =>
      let r := recv_Blocks res.data
      (s1, r.1, r.2)
    | "GetTransactions" =>
      (s1, [], some "TypeError: recv_GetTransactions takes 2 arguments, 3 given")
    | _ => (s1, [], none)

/-- A command popped from `ChainManagerOutProxy.get_next_cmd()` as
destructured at line 385. -/
inductive OutCmd where
  | send_transactions (transaction_list : PyVal) (peer_id : PyVal)
  | get_chain (count : Nat) (parents_H : List PyVal)
  | unknownCmd (name : String)

/-- The peer-manager view the drain loop reads: the connected peers and
`get_peer_by_id`. -/
structure PeerManager where
  connected_peers : List Nat
  get_peer_by_id : PyVal → Option Nat

/-- One iteration of `WireProtocol.send_chain_out_cmd` (lines 385-402):
`send_transactions` unicasts or broadcasts Transactions; `get_chain` with
truthy count and parents evaluates `self.send_GetChain`, an attribute that
does not exist on `WireProtocol`, raising AttributeError (and `_broadcast`
at line 376 only accepts one data argument anyway); an unknown command
raises the `unknown commad` exception (typo as in the source). -/
def out_step (pm : PeerManager) : OutCmd → Except String (List Action)
  | OutCmd.send_transactions txl pid =>
    match pm.get_peer_by_id pid with
    | some p => Except.ok [Action.sendTransactionTo p (dump_Transactions txl)]
    | none => Except.ok (pm.connected_peers.map
        (fun p => Action.sendTransactionTo p (dump_Transactions txl)))
  | OutCmd.get_chain count parents_H =>
    if count ≠ 0 ∧ parents_H.length ≠ 0 then
      Except.error "AttributeError: WireProtocol has no attribute send_GetChain"
    else Except.ok []
  | OutCmd.unknownCmd _ => Except.error "unknown commad"

/-- `WireProtocol.send_chain_out_cmd` (lines 380-402): drain the queued
commands until none remain or one raises, keeping the sends already made. -/
def send_chain_out_cmd (pm : PeerManager) : List OutCmd → List Action × Option String
  | [] => ([], none)
  | c :: rest =>
    match out_step pm c with
    | Except.ok acts =>
      let r := send_chain_out_cmd pm rest
      (acts ++ r.1, r.2)
    | Except.error msg => ([], some msg)

/-- A concrete configuration used for closed evaluations. -/
def cfg0 : Config := ⟨[], 30303, []⟩

theorem idec_append_one (xs : List Nat) (b : Nat) :
    idec (xs ++ [b]) = idec xs * 256 + b := by
  simp [idec, List.foldl_append]

theorem idec_ibeAux (fuel n : Nat) (h : n ≤ fuel) : idec (ibeAux fuel n) = n := by
  induction fuel generalizing n with
  | zero =>
    interval_cases n
    simp [ibeAux, idec]
  | succ fuel ih =>
    by_cases h0 : n = 0
    · simp [ibeAux, h0, idec]
    · rw [ibeAux, if_neg h0, idec_append_one, ih (n / 256) (by omega)]
      omega

theorem idec_ibe (n : Nat) : idec (ibe n) = n := idec_ibeAux n n le_rfl

theorem idec_ienc4 (n : Nat) : idec (ienc4 n) = n % 2 ^ 32 := by
  simp [idec, ienc4]
  omega

theorem enc_length_ge (x : Item) : 2 ≤ (enc x).length := by
  cases x <;> simp [enc, lenHeader]

theorem enc_list_length (l : List Item) :
    (enc (Item.list l)).length
      = 2 + (ibe (encList l).length).length + (encList l).length := by
  simp [enc, lenHeader]
  omega

theorem decList_encList (fuel : Nat) :
    ∀ l : List Item, (encList l).length < fuel → decList fuel (encList l) = some l := by
  induction fuel with
  | zero => intro l h; omega
  | succ fuel ih =>
    intro l h
    match l with
    | [] => rfl
    | x :: xs =>
      have hx := enc_length_ge x
      rw [encList, List.length_append] at h
      match x with
      | .str s =>
        have hxs : (encList xs).length < fuel := by
          have := enc_length_ge (Item.str s); omega
        have e1 : encList (Item.str s :: xs)
            = 0 :: (ibe s.length).length :: (ibe s.length ++ (s ++ encList xs)) := by
          simp [encList, enc, lenHeader]
        rw [e1, decList, List.take_left' rfl, List.drop_left' rfl, idec_ibe]
        rw [if_pos (by simp only [List.length_append]; omega),
            if_pos (by simp only [List.length_append]; omega), if_pos rfl]
        rw [List.drop_left' rfl, List.take_left' rfl, ih xs hxs]
      | .list l' =>
        have hxs : (encList xs).length < fuel := by
          have := enc_length_ge (Item.list l'); omega
        have hl' : (encList l').length < fuel := by
          have := enc_list_length l'; omega
        have e1 : encList (Item.list l' :: xs)
            = 1 :: (ibe (encList l').length).length ::
                (ibe (encList l').length ++ (encList l' ++ encList xs)) := by
          simp [encList, enc, lenHeader]
        rw [e1, decList, List.take_left' rfl, List.drop_left' rfl, idec_ibe]
        rw [if_pos (by simp only [List.length_append]; omega),
            if_pos (by simp only [List.length_append]; omega),
            if_neg (by norm_num), if_pos rfl]
        rw [List.drop_left' rfl, List.take_left' rfl, ih l' hl', ih xs hxs]

theorem rlp_decode_enc (x : Item) : rlp_decode (enc x) = some x := by
  match x with
  | .str s =>
    have e1 : enc (Item.str s)
        = 0 :: (ibe s.length).length :: (ibe s.length ++ s) := by
      simp [enc, lenHeader]
    rw [e1, rlp_decode, List.take_left' rfl, List.drop_left' rfl, idec_ibe]
    rw [if_pos (by simp only [List.length_append]; omega), if_pos rfl, if_pos rfl]
  | .list l =>
    have e1 : enc (Item.list l)
        = 1 :: (ibe (encList l).length).length ::
            (ibe (encList l).length ++ encList l) := by
      simp [enc, lenHeader]
    rw [e1, rlp_decode, List.take_left' rfl, List.drop_left' rfl, idec_ibe]
    rw [if_pos (by simp only [List.length_append]; omega), if_pos rfl,
        if_neg (by norm_num), if_pos rfl]
    rw [decList_encList _ l (by omega)]
    rfl

theorem lrlp_decode_enc_list (l : List Item) :
    lrlp_decode (enc (Item.list l)) = some l := by
  rw [lrlp_decode, rlp_decode_enc]

theorem ritbeList_eq_map (l : List PyVal) :
    ritbeList l = l.map recursive_int_to_big_endian := by
  induction l with
  | nil => rfl
  | cons x xs ih => rw [ritbeList, ih, List.map_cons]

theorem frame_take4 (n : Nat) (p : List Nat) :
    (ienc4 SYNCHRONIZATION_TOKEN ++ (ienc4 n ++ p)).take 4
      = ienc4 SYNCHRONIZATION_TOKEN := rfl

theorem frame_drop4_take4 (n : Nat) (p : List Nat) :
    ((ienc4 SYNCHRONIZATION_TOKEN ++ (ienc4 n ++ p)).drop 4).take 4 = ienc4 n := rfl

theorem frame_drop8 (n : Nat) (p : List Nat) :
    (ienc4 SYNCHRONIZATION_TOKEN ++ (ienc4 n ++ p)).drop 8 = p := rfl

theorem idec_ienc4_sync :
    idec (ienc4 SYNCHRONIZATION_TOKEN) = SYNCHRONIZATION_TOKEN := by decide

/-- C1 (amended): for every command id in the command table and every
argument list whose serialised payload fits the 4-byte length field,
`load_packet` applied to `dump_packet ([cmd_id] ++ args)` succeeds and
returns the command's name together with the arguments AFTER integer
conversion: every integer is replaced (recursively) by its big-endian
byte string — in particular, exactly the original list whenever the
arguments already are byte strings and nested lists. -/
theorem dump_load_roundtrip (cmd_id : Nat) (name : String) (args : List PyVal)
    (hcmd : cmd_map cmd_id = some name)
    (hlen : (enc (Item.list (Item.str (ibe cmd_id) :: ritbeList args))).length < 2 ^ 32) :
    load_packet (dump_packet (PyVal.int cmd_id :: args)) =
      Except.ok ⟨SYNCHRONIZATION_TOKEN,
        (enc (Item.list (Item.str (ibe cmd_id) :: ritbeList args))).length,
        name, args.map recursive_int_to_big_endian⟩ := by
  have hpv : recursive_int_to_big_endian (PyVal.list (PyVal.int cmd_id :: args))
      = Item.list (Item.str (ibe cmd_id) :: ritbeList args) := rfl
  rw [dump_packet, hpv, load_packet]
  rw [frame_take4, frame_drop4_take4, frame_drop8, idec_ienc4_sync, idec_ienc4,
      Nat.mod_eq_of_lt hlen, if_neg (by simp), List.take_length, lrlp_decode_enc_list]
  simp only [idec_ibe, hcmd, ritbeList_eq_map]

/-- C1 counterexample to the claim as stated: encoding Ping with the
integer argument 5 and decoding gives back the byte string containing 5,
not the integer 5 — the original argument list is not returned. -/
theorem dump_load_int_args_changed :
    ∃ res, load_packet (dump_packet [PyVal.int 0x02, PyVal.int 5]) = Except.ok res ∧
      res.cmd = "Ping" ∧ res.data.map itemToPy ≠ [PyVal.int 5] := by
  refine ⟨⟨SYNCHRONIZATION_TOKEN, 11, "Ping", [Item.str [5]]⟩, rfl, rfl, ?_⟩
  intro h
  injection h with h1 _
  exact PyVal.noConfusion h1

/-- C1 witness: the amended round trip evaluated at Ping with one
byte-string argument, which comes back exactly as sent. -/
theorem dump_load_roundtrip_witness :
    cmd_map 0x02 = some "Ping" ∧
    (enc (Item.list (Item.str (ibe 0x02) :: ritbeList [PyVal.str [0xAB]]))).length < 2 ^ 32 ∧
    load_packet (dump_packet [PyVal.int 0x02, PyVal.str [0xAB]]) =
      Except.ok ⟨SYNCHRONIZATION_TOKEN, 11, "Ping", [Item.str [0xAB]]⟩ :=
  ⟨rfl, by decide,
    dump_load_roundtrip 0x02 "Ping" [PyVal.str [0xAB]] rfl (by decide)⟩

/-- C9: for every input buffer whose first 4 bytes, read as a big-endian
integer, differ from 0x22400891, `load_packet` fails with the framing
error, regardless of the remaining content of the buffer. -/
theorem load_packet_bad_sync_token (packet : List Nat)
    (h : idec (packet.take 4) ≠ SYNCHRONIZATION_TOKEN) :
    load_packet packet
      = Except.error (LoadErr.framing (header_err (idec (packet.take 4)))) := by
  rw [load_packet, if_pos h]

/-- C9 witness: a buffer of twelve zero bytes has sync token 0 and is
rejected with the framing error. -/
theorem load_packet_bad_sync_token_witness :
    idec ((List.replicate 12 0).take 4) ≠ SYNCHRONIZATION_TOKEN ∧
    load_packet (List.replicate 12 0)
      = Except.error (LoadErr.framing (header_err 0)) :=
  ⟨by decide, load_packet_bad_sync_token (List.replicate 12 0) (by decide)⟩

/-- C2: at a fresh session, a Hello with version 8 (network id 0) and a
Hello with version 9 but network id 1 make the engine behave identically:
in both cases `peer.send_packet` receives `None` — no Disconnect packet
with a reason code is framed, so the two mismatches are indistinguishable
on the wire (the reason argument is dropped by `send_Disconnect` and
`dump_Disconnect` lacks a return statement). -/
theorem recv_Hello_mismatches_send_none :
    recv_Hello cfg0 session0 [Item.str [0x08], Item.str []] =
      (session0, [Action.sendPacket none, Action.sleep 2, Action.removePeer], none)
  ∧ recv_Hello cfg0 session0 [Item.str [0x09], Item.str [0x01]] =
      (session0, [Action.sendPacket none, Action.sleep 2, Action.removePeer], none) :=
  ⟨rfl, rfl⟩

theorem ord_list_ok (ipb : List Item)
    (h : ∀ b ∈ ipb, ∃ s, b = Item.str s ∧ s.length ≤ 1) :
    ord_list ipb = Except.ok (ipb.map ipByte) := by
  induction ipb with
  | nil => rfl
  | cons b bs ih =>
    obtain ⟨s, rfl, hs⟩ := h b (by simp)
    have hb : ord_or_nul (Item.str s) = Except.ok (ipByte (Item.str s)) := by
      match s, hs with
      | [], _ => rfl
      | [x], _ => rfl
    rw [ord_list, hb, ih (fun b hb2 => h b (by simp [hb2]))]
    rfl

theorem recv_Peers_ok_append (pre : List Item) (acts : List Action)
    (h : peers_entries_ok pre = some acts) (suffix : List Item) :
    recv_Peers (pre ++ suffix)
      = (acts ++ (recv_Peers suffix).1, (recv_Peers suffix).2) := by
  induction pre generalizing acts with
  | nil =>
    rw [peers_entries_ok] at h
    injection h with h
    subst h
    simp
  | cons e pre ih =>
    rw [peers_entries_ok] at h
    match he : peers_entry e, hm : peers_entries_ok pre with
    | Except.ok a, some as =>
      rw [he, hm] at h
      injection h with h
      subst h
      rw [List.cons_append, recv_Peers, he, ih as hm]
      simp
    | Except.ok a, none => rw [he, hm] at h; exact Option.noConfusion h
    | Except.error msg, _ => rw [he] at h; exact Option.noConfusion h

/-- C3 (amended): entries of a Peers message are processed in order; an
entry whose fields are a byte-string ip list (of ANY length — the code has
no 4-element check), a byte-string port and a node id is forwarded to the
peer-address directory as the dot-joined decimal ip string, the big-endian
decoded port and the node id; the first malformed entry raises and aborts
the remainder of the message (earlier entries stay forwarded), rather than
being rejected individually. -/
theorem recv_Peers_amended (pre : List Item) (acts : List Action)
    (hpre : peers_entries_ok pre = some acts) :
    (recv_Peers pre = (acts, none)) ∧
    (∀ bad rest msg, peers_entry bad = Except.error msg →
        recv_Peers (pre ++ bad :: rest) = (acts, some msg)) ∧
    (∀ ipb pb pid, (∀ b ∈ ipb, ∃ s, b = Item.str s ∧ s.length ≤ 1) →
        peers_entry (Item.list [Item.list ipb, Item.str pb, pid]) =
          Except.ok (Action.addPeerAddress
            (String.intercalate "." ((ipb.map ipByte).map toString)) (idec pb) pid)) := by
  refine ⟨?_, ?_, ?_⟩
  · have := recv_Peers_ok_append pre acts hpre []
    simpa [recv_Peers] using this
  · intro bad rest msg hbad
    rw [recv_Peers_ok_append pre acts hpre (bad :: rest), recv_Peers, hbad]
    simp
  · intro ipb pb pid hip
    rw [peers_entry, ip_join, ord_list_ok ipb hip]
    rfl

/-- C3 counterexample to the claim as stated: an entry whose ip list has
five elements is forwarded (as "1.2.3.4.5"), not rejected; and an entry
whose ip is not a list aborts the whole message, so a well-formed entry
after it is never forwarded. -/
theorem recv_Peers_claim_false :
    recv_Peers [Item.list [Item.list [Item.str [1], Item.str [2], Item.str [3],
                  Item.str [4], Item.str [5]], Item.str [0x75, 0x30], Item.str [0xAA]]] =
      ([Action.addPeerAddress "1.2.3.4.5" 30000 (Item.str [0xAA])], none) ∧
    recv_Peers [Item.list [Item.str [1, 2, 3, 4], Item.str [0], Item.str [0]],
                Item.list [Item.list [Item.str [1], Item.str [2], Item.str [3],
                  Item.str [4]], Item.str [0], Item.str [0]]] =
      ([], some "AssertionError") :=
  ⟨rfl, rfl⟩

/-- C3 witness: a single well-formed 4-byte entry is forwarded as the
dotted quad 6.204.10.41 with port 30303. -/
theorem recv_Peers_amended_witness :
    recv_Peers [Item.list [Item.list [Item.str [6], Item.str [204], Item.str [10],
        Item.str [41]], Item.str [0x76, 0x5F], Item.str [7]]] =
      ([Action.addPeerAddress "6.204.10.41" 30303 (Item.str [7])], none) :=
  (recv_Peers_amended
    [Item.list [Item.list [Item.str [6], Item.str [204], Item.str [10],
        Item.str [41]], Item.str [0x76, 0x5F], Item.str [7]]]
    [Action.addPeerAddress "6.204.10.41" 30303 (Item.str [7])] rfl).1

/-- C4 (amended): an empty Disconnect message, and one whose reason id is
in the reason table, make the handler request the peer's removal and
return normally; but a reason id NOT in the table raises KeyError and the
removal is never requested — the handler can fail and no id is treated as
"unspecified". -/
theorem recv_Disconnect_amended (data : List Item) :
    (data = [] → recv_Disconnect data = ([Action.removePeer], none)) ∧
    (∀ d0 rest rid, data = d0 :: rest → idecItem d0 = some rid →
      ((disconnect_reasons_map_by_id rid).isSome →
          recv_Disconnect data = ([Action.removePeer], none)) ∧
      (disconnect_reasons_map_by_id rid = none →
          recv_Disconnect data = ([], some "KeyError"))) := by
  constructor
  · rintro rfl; rfl
  · rintro d0 rest rid rfl hid
    constructor
    · intro hs
      rw [Option.isSome_iff_exists] at hs
      obtain ⟨r, hr⟩ := hs
      simp [recv_Disconnect, hid, hr]
    · intro hn
      simp [recv_Disconnect, hid, hn]

/-- C4 counterexample to the claim as stated: reason id 0x99 is not in
the reason table; the handler raises KeyError and never requests the
peer's removal, instead of treating the id as "unspecified". -/
theorem recv_Disconnect_unknown_reason_fails :
    recv_Disconnect [Item.str [0x99]] = ([], some "KeyError") := rfl

/-- C4 witness: the amended characterisation evaluated at the empty
message and at reason id 3 (Useless peer). -/
theorem recv_Disconnect_amended_witness :
    recv_Disconnect [] = ([Action.removePeer], none) ∧
    recv_Disconnect [Item.str [0x03]] = ([Action.removePeer], none) :=
  ⟨(recv_Disconnect_amended []).1 rfl,
   ((recv_Disconnect_amended [Item.str [0x03]]).2
      (Item.str [0x03]) [] 3 rfl rfl).1 rfl⟩

/-- C5: handling GetPeers never transmits anything, whatever the
peer-address directory contains — `dump_Peers` returns `None` even for a
non-empty directory (its non-empty branch lacks a return statement), so
the `if packet:` guard in `send_Peers` never fires. The claim that a
non-empty directory produces a Peers reply contradicts the code; the
zero-address half (send nothing) holds trivially. -/
theorem send_Peers_never_sends (known : List (String × Nat × PyVal)) (data : List Item) :
    recv_GetPeers known data = [] ∧ dump_Peers known = none := by
  have hd : dump_Peers known = none := by
    simp only [dump_Peers]
    split <;> rfl
  exact ⟨by rw [recv_GetPeers, send_Peers, hd], hd⟩

/-- C6: a well-formed GetTransactions packet reaches dispatch, but the
call `_recv_GetTransactions(peer, data)` raises TypeError because the
method is declared with only a `peer` parameter — the handler body never
runs and `request_transactions` is never invoked on the transaction pool
(no `requestTransactions` action is produced). -/
theorem recv_GetTransactions_dispatch_fails (ctx : EngineCtx) (s : Session) (now : Nat) :
    recv_packet ctx s now (dump_packet [PyVal.int 0x16]) =
      ({ s with last_valid_packet_received := some now }, [],
        some "TypeError: recv_GetTransactions takes 2 arguments, 3 given") := rfl

/-- C7: receiving a framed Ping makes the engine emit exactly one packet,
the framed Pong `[0x03]`, with no error and no session change beyond the
valid-packet timestamp the dispatcher records for every decoded packet. -/
theorem recv_Ping_sends_single_Pong (ctx : EngineCtx) (s : Session) (now : Nat) :
    recv_packet ctx s now (dump_packet [PyVal.int 0x02]) =
      ({ s with last_valid_packet_received := some now },
        [Action.sendPacket (some (dump_packet [PyVal.int 0x03]))], none) := rfl

/-- C8: a `get_chain` command with truthy count and a non-empty parent
list raises AttributeError (there is no `send_GetChain` method to
broadcast with) and nothing is broadcast; with count 0 or an empty parent
list the command is a no-op, as claimed. -/
theorem get_chain_cmd_raises :
    send_chain_out_cmd pm0 [OutCmd.get_chain 1 [PyVal.str [0xAB]]] =
      ([], some "AttributeError: WireProtocol has no attribute send_GetChain") ∧
    send_chain_out_cmd pm0 [OutCmd.get_chain 0 [PyVal.str [0xAB]]] = ([], none) ∧
    send_chain_out_cmd pm0 [OutCmd.get_chain 5 []] = ([], none) :=
  ⟨rfl, rfl, rfl⟩

/-- C10: for every reason argument that passes the assertion (None or a
valid reason name), `dump_Disconnect` returns `None` instead of the framed
Disconnect packet, and `send_Disconnect` (which always calls
`dump_Disconnect()` with no reason) always hands `None` to
`peer.send_packet`. -/
theorem dump_Disconnect_returns_None (reason : Option String)
    (h : ∀ r, reason = some r → (disconnect_reasons_map r).isSome) :
    dump_Disconnect reason = Except.ok none ∧
    ∀ r2 : Option String, send_Disconnect r2
        = [Action.sendPacket none, Action.sleep 2, Action.removePeer] := by
  refine ⟨?_, fun r2 => rfl⟩
  match reason with
  | none => rfl
  | some r =>
    have hr := h r rfl
    rw [Option.isSome_iff_exists] at hr
    obtain ⟨rid, hrid⟩ := hr
    simp [dump_Disconnect, hrid]

/-- C10 witness: evaluated at the valid reason name Bad protocol, and the
send path evaluated at None. -/
theorem dump_Disconnect_returns_None_witness :
    dump_Disconnect (some "Bad protocol") = Except.ok none ∧
    send_Disconnect none = [Action.sendPacket none, Action.sleep 2, Action.removePeer] :=
  ⟨(dump_Disconnect_returns_None (some "Bad protocol")
      (fun _ hr => by cases hr; rfl)).1,
   (dump_Disconnect_returns_None (some "Bad protocol")
      (fun _ hr => by cases hr; rfl)).2 none⟩

/-- A fresh session used for closed evaluations. -/
def session0 : Session := ⟨false, false, none, none⟩

/-- A concrete peer-manager view used for closed evaluations. -/
def pm0 : PeerManager := ⟨[1, 2], fun _ => none⟩

end Pyeth
